import Mathlib

/-!
Shallow embedding of the payment processing core of the
Creativetech-Solutions/website repository (wlhosted/payments/models.py and
wlhosted/payments/backends.py), together with theorems settling the frozen
claims about it.

JSON dictionary fields (`details`, `extra`) are modelled as association
lists of string pairs with Python dict semantics (insertion order kept,
assignment replaces the first matching key or appends).  Monetary floats
are modelled over `ℚ`; Python's `round(x, 2)` (banker's rounding to two
decimal places) is modelled exactly as round-half-to-even.
-/

namespace Wlhosted

/-- Association-list model of a Python dict with string keys and values. -/
abbrev Dict := List (String × String)

namespace Dict

/-- Python `d[k]` lookup returning an option (`d.get(k)`). -/
def get? (d : Dict) (k : String) : Option String :=
  (d.find? (fun e => e.1 = k)).map (fun e => e.2)

/-- Python `d.get(k, dflt)`. -/
def getD (d : Dict) (k : String) (dflt : String) : String :=
  (d.get? k).getD dflt

/-- Python `d[k] = v`: replace the first binding of `k`, or append it. -/
def set : Dict → String → String → Dict
  | [], k, v => [(k, v)]
  | e :: rest, k, v =>
      if e.1 = k then (k, v) :: rest else e :: set rest k v

/-- Python `d.update(other)`: assign every binding of `other` in order. -/
def update (d : Dict) (other : Dict) : Dict :=
  other.foldl (fun acc e => acc.set e.1 e.2) d

end Dict

/-- The per-country EU VAT rate table `EU_VAT_RATES` from models.py. -/
def EU_VAT_RATES : List (String × Nat) :=
  [("BE", 21), ("BG", 20), ("CZ", 21), ("DK", 25), ("DE", 19), ("EE", 20),
   ("IE", 23), ("GR", 24), ("ES", 21), ("FR", 20), ("HR", 25), ("IT", 22),
   ("CY", 19), ("LV", 21), ("LT", 21), ("LU", 17), ("HU", 27), ("MT", 18),
   ("NL", 21), ("AT", 20), ("PL", 23), ("PT", 23), ("RO", 19), ("SI", 22),
   ("SK", 20), ("FI", 24), ("SE", 25), ("GB", 20)]

/-- The flat rate `VAT_RATE` from models.py. -/
def VAT_RATE : Nat := 21

/-- Python `str.upper()` (character-wise upper-casing). -/
def pyUpper (s : String) : String :=
  String.mk (s.data.map Char.toUpper)

/-- The `Customer` model.  An unset `vat` is the empty string (Python
falsy); `country` holds the ISO country code when set. -/
structure Customer where
  vat : String := ""
  tax : String := ""
  name : String := ""
  address : String := ""
  city : String := ""
  country : Option String := none
  email : String := ""
deriving DecidableEq, Repr

namespace Customer

/-- `Customer.country_code`: the upper-cased country code, when set. -/
def country_code (c : Customer) : Option String :=
  c.country.map pyUpper

/-- `Customer.vat_country_code`: the upper-cased two-letter prefix of the
VAT id, when the VAT id is set. -/
def vat_country_code (c : Customer) : Option String :=
  if c.vat = "" then none else some (pyUpper (c.vat.take 2))

/-- `Customer.is_eu_enduser`: country is in the EU rate table and no VAT
id is set. -/
def is_eu_enduser (c : Customer) : Bool :=
  (match c.country_code with
   | some cc => (EU_VAT_RATES.find? (fun e => e.1 = cc)).isSome
   | none => false) && c.vat = ""

/-- `Customer.needs_vat`: the VAT country is CZ, or the customer is an EU
end consumer. -/
def needs_vat (c : Customer) : Bool :=
  c.vat_country_code = some "CZ" || c.is_eu_enduser

/-- `Customer.vat_rate`: the flat `VAT_RATE` when VAT applies, else 0. -/
def vat_rate (c : Customer) : Nat :=
  if c.needs_vat then VAT_RATE else 0

/-- `Customer.clean`: validation.  Raising `ValidationError` on a field is
modelled as an error value carrying the field name and message; success
returns the customer unchanged (`clean` never modifies it). -/
def clean (c : Customer) : Except (String × String) Customer :=
  if c.vat ≠ "" then
    if c.vat_country_code ≠ c.country_code then
      .error ("country", "The country has to match your VAT code")
    else .ok c
  else .ok c

end Customer

/-- Payment lifecycle states (the `NEW` .. `PROCESSED` constants). -/
inductive PState
  | NEW
  | PENDING
  | REJECTED
  | ACCEPTED
  | PROCESSED
deriving DecidableEq, Repr

/-- The `Payment` model.  `repeat` is the optional primary key of the
payment this one renews; `created` is a timestamp ordinal; `pk` the row's
own key (a UUID in the source, opaque here). -/
structure Payment where
  amount : Int
  description : String := ""
  recurring : String := ""
  state : PState := .NEW
  backend : String := ""
  details : Dict := []
  extra : Dict := []
  customer : Customer := {}
  «repeat» : Option Nat := none
  invoice : String := ""
  amount_fixed : Bool := false
  created : Nat := 0
  pk : Nat := 0
deriving DecidableEq, Repr

/-- Python `round` to an integer: round half to even. -/
def pyRound (x : ℚ) : ℤ :=
  if x - ⌊x⌋ = 1 / 2 then (if ⌊x⌋ % 2 = 0 then ⌊x⌋ else ⌊x⌋ + 1)
  else round x

/-- Python `round(x, 2)`. -/
def round2 (x : ℚ) : ℚ :=
  (pyRound (100 * x) : ℚ) / 100

namespace Payment

/-- `Payment.vat_amount`: the amount grossed up by the customer's VAT rate
unless `amount_fixed`, rounded to two decimal places. -/
def vat_amount (p : Payment) : ℚ :=
  if p.customer.needs_vat && !p.amount_fixed then
    round2 ((100 + (p.customer.vat_rate : ℚ)) * (p.amount : ℚ) / 100)
  else (p.amount : ℚ)

/-- `Payment.amount_without_vat`: the amount degrossed when `amount_fixed`
and VAT applies. -/
def amount_without_vat (p : Payment) : ℚ :=
  if p.customer.needs_vat && p.amount_fixed then
    100 * (p.amount : ℚ) / (100 + (p.customer.vat_rate : ℚ))
  else (p.amount : ℚ)

end Payment

/-- The class-level attributes of a backend (`name`, `debug`,
`recurring`).  `verbose` is display-only and omitted. -/
structure BackendMeta where
  name : String
  debug : Bool
  recurring : Bool
deriving DecidableEq, Repr

/-- `InvalidState`, the error raised on illegal lifecycle transitions. -/
inductive PayError
  | InvalidState
deriving DecidableEq, Repr

/-- Observable side effects fired by the lifecycle methods: invoice
generation, the success email, and the failure email (carrying the reason
string quoted in its body). -/
inductive Event
  | invoiced
  | mailSuccess
  | mailFailure (reason : String)
deriving DecidableEq, Repr

namespace Backend

/-- `Backend.generate_invoice`: skipped when invoicing is disabled by
configuration (`PAYMENT_FAKTURACE is None`, modelled by `fakturace =
false`); otherwise stores the invoice and records its identifier (the
identifier assigned by the external store is the `invoiceId` argument). -/
def generate_invoice (fakturace : Bool) (invoiceId : String)
    (p : Payment) : Payment × List Event :=
  if fakturace then ({ p with invoice := invoiceId }, [Event.invoiced])
  else (p, [])

/-- `Backend.success`: accept the payment, clear `recurring` unless the
backend supports recurring billing, generate the invoice, notify the
user. -/
def success (meta : BackendMeta) (fakturace : Bool) (invoiceId : String)
    (p : Payment) : Payment × List Event :=
  let p1 := { p with state := PState.ACCEPTED }
  let p2 := if !meta.recurring then { p1 with recurring := "" } else p1
  let r := generate_invoice fakturace invoiceId p2
  (r.1, r.2 ++ [Event.mailSuccess])

/-- `Backend.failure`: reject the payment and notify the user; the
failure mail quotes `details['reject_reason']`, defaulting to
`'Uknown'`. -/
def failure (p : Payment) : Payment × List Event :=
  ({ p with state := PState.REJECTED },
   [Event.mailFailure (p.details.getD "reject_reason" "Uknown")])

/-- `Backend.initiate`: guarded by `state == NEW` and by the recurring
capability when `repeat` is set; on success runs the method-specific
`perform` (modelled as a function returning an optional redirect and the
possibly-updated payment), then sets the state to `PENDING` and records
the backend name in `details`.  The returned payment is the payment after
the call (unchanged on error). -/
def initiate (meta : BackendMeta)
    (perform : Payment → Option String × Payment)
    (p : Payment) : Except PayError (Option String) × Payment :=
  if p.state ≠ PState.NEW then (.error .InvalidState, p)
  else if p.«repeat».isSome && !meta.recurring then (.error .InvalidState, p)
  else
    let r := perform p
    (.ok r.1,
     { r.2 with
         state := PState.PENDING,
         details := r.2.details.set "backend" meta.name })

/-- `Backend.complete`: guarded by `state == PENDING`; runs the
method-specific `collect` (modelled as a function returning the boolean
outcome and the possibly-updated payment) and dispatches to `success` or
`failure`.  Returns the boolean outcome, the payment after the call, and
the side effects fired. -/
def complete (meta : BackendMeta)
    (collect : Payment → Bool × Payment)
    (fakturace : Bool) (invoiceId : String)
    (p : Payment) : Except PayError Bool × Payment × List Event :=
  if p.state ≠ PState.PENDING then (.error .InvalidState, p, [])
  else
    let c := collect p
    if c.1 then
      let r := success meta fakturace invoiceId c.2
      (.ok true, r.1, r.2)
    else
      let r := failure c.2
      (.ok false, r.1, r.2)

end Backend

/-- Class attributes of `DebugPay`. -/
def DebugPay.meta : BackendMeta := { name := "pay", debug := true, recurring := true }

/-- `DebugPay.perform`: returns no redirect and touches nothing. -/
def DebugPay.perform (p : Payment) : Option String × Payment := (none, p)

/-- `DebugPay.collect`: always succeeds. -/
def DebugPay.collect (p : Payment) : Bool × Payment := (true, p)

/-- Class attributes of `DebugReject`. -/
def DebugReject.meta : BackendMeta := { name := "reject", debug := true, recurring := false }

/-- `DebugReject.collect`: records a reject reason and fails. -/
def DebugReject.collect (p : Payment) : Bool × Payment :=
  (false, { p with details := p.details.set "reject_reason" "Debug reject" })

/-- Class attributes of `DebugPending`. -/
def DebugPending.meta : BackendMeta := { name := "pending", debug := true, recurring := false }

/-- `DebugPending.perform`: redirects to an external confirmation URL. -/
def DebugPending.perform (completeUrl : String) (p : Payment) :
    Option String × Payment :=
  (some ("https://cihar.com/?url=" ++ completeUrl), p)

/-- Class attributes of `ThePayCard`. -/
def ThePayCard.meta : BackendMeta := { name := "thepay-card", debug := false, recurring := true }

/-- Class attributes of `ThePayBitcoin`. -/
def ThePayBitcoin.meta : BackendMeta := { name := "thepay-bitcoin", debug := false, recurring := false }

/-- The gateway callback data `ThePayCard.collect` works on, as parsed by
`thepay.payment.ReturnPayment`: whether the signature checks out, the
echoed merchant data, the status code, and the raw payload. -/
structure ReturnPayment where
  signatureValid : Bool
  merchantData : String
  status : Nat
  data : Dict
deriving DecidableEq, Repr

/-- The status-code-to-reason mapping in `ThePayCard.collect`. -/
def thePayReason (status : Nat) : String :=
  if status = 3 then "Payment cancelled"
  else if status = 4 then "Error during payment"
  else if status = 6 then "Underpaid"
  else if status = 7 then "Waiting for additional confirmation"
  else if status = 9 then "Deposit confirmed"
  else "Unknown: " ++ toString status

/-- `ThePayCard.collect`: reject on bad signature or merchant-data
mismatch (touching nothing), else store the payload in `details`; status
2 is success, anything else records a reject reason and fails. -/
def ThePayCard.collect (ret : ReturnPayment) (p : Payment) : Bool × Payment :=
  if !ret.signatureValid then (false, p)
  else if ret.merchantData ≠ toString p.pk then (false, p)
  else
    let p1 := { p with details := ret.data }
    if ret.status = 2 then (true, p1)
    else
      (false,
       { p1 with
           details := p1.details.set "reject_reason" (thePayReason ret.status) })

/-- The `BACKENDS` registry, in registration (module load) order. -/
def BACKENDS : List BackendMeta :=
  [DebugPay.meta, DebugReject.meta, DebugPending.meta,
   ThePayCard.meta, ThePayBitcoin.meta]

/-- `get_backend`: `KeyError` (modelled as `none`) when the name is not
registered, or when the backend is a debug one and `PAYMENT_DEBUG` is
off. -/
def get_backend (paymentDebug : Bool) (name : String) : Option BackendMeta :=
  match BACKENDS.find? (fun b => b.name = name) with
  | none => none
  | some b => if b.debug && !paymentDebug then none else some b

/-- The created timestamp of the most recent `PROCESSED` payment in a
renewal chain (`previous.filter(state=PROCESSED).order_by('-created')[0]`),
when one exists. -/
def lastGoodCreated (previous : List Payment) : Option Nat :=
  (previous.filter (fun q => q.state = PState.PROCESSED)).foldl
    (fun acc q =>
      match acc with
      | none => some q.created
      | some m => some (max m q.created))
    none

/-- The failure streak counted by `repeat_payment`: `REJECTED` payments in
the chain created after the most recent `PROCESSED` one, or all of them
when no `PROCESSED` exists. -/
def failureStreak (previous : List Payment) : Nat :=
  let failures := previous.filter (fun q => q.state = PState.REJECTED)
  match lastGoodCreated previous with
  | some t => (failures.filter (fun q => t < q.created)).length
  | none => failures.length

/-- The failure streak as the spec words it, for comparison with
`failureStreak`: the REJECTED payments in the renewal chain created after
the most recent PROCESSED one, or all REJECTED payments when no PROCESSED
payment exists. -/
def chainFailureStreakSpec (previous : List Payment) : Nat :=
  match ((previous.filter (fun q => q.state = PState.PROCESSED)).map
      Payment.created).max? with
  | some t =>
      (previous.filter
        (fun q => q.state = PState.REJECTED ∧ t < q.created)).length
  | none =>
      (previous.filter (fun q => q.state = PState.REJECTED)).length

namespace Payment

/-- `Payment.repeat_payment`.  `previous` is the renewal chain (the rows
whose `repeat` points at `p`); `kwargs` the caller-supplied extra
overrides; `newPk` and `now` the key and timestamp the store assigns to a
created row.  The first component is the Python return value (`some
false` for the explicit `return False`, `none` for falling off the end
returning `None`); the second is the created row, when one is created.
The outbound HTTP trigger carries no local state and is not modelled. -/
def repeat_payment (paymentDebug : Bool) (previous : List Payment)
    (kwargs : Dict) (newPk : Nat) (now : Nat) (p : Payment) :
    Option Bool × Option Payment :=
  match get_backend paymentDebug p.backend with
  | none => (some false, none)
  | some _ =>
    if previous ≠ [] && failureStreak previous ≥ 3 then (some false, none)
    else
      let extra := (Dict.update [] p.extra).update kwargs
      (none,
       some { amount := p.amount,
              description := p.description,
              recurring := "",
              customer := p.customer,
              amount_fixed := p.amount_fixed,
              «repeat» := some p.pk,
              extra := extra,
              created := now,
              pk := newPk })

end Payment

/-- One lifecycle operation applied to a payment: an `initiate` or
`complete` call through any backend (any metadata, any method-specific
`perform`/`collect`, any invoicing configuration), or the external
marking of an `ACCEPTED` payment as `PROCESSED`. -/
inductive Step : Payment → Payment → Prop
  | initiate (meta : BackendMeta)
      (perform : Payment → Option String × Payment) (p : Payment) :
      Step p (Backend.initiate meta perform p).2
  | complete (meta : BackendMeta) (collect : Payment → Bool × Payment)
      (fakturace : Bool) (invoiceId : String) (p : Payment) :
      Step p (Backend.complete meta collect fakturace invoiceId p).2.1
  | process (p : Payment) : p.state = PState.ACCEPTED →
      Step p { p with state := PState.PROCESSED }

/-- Position of a state along the forward lifecycle order
NEW → PENDING → (REJECTED | ACCEPTED) → PROCESSED. -/
def PState.rank : PState → Nat
  | .NEW => 0
  | .PENDING => 1
  | .REJECTED => 2
  | .ACCEPTED => 2
  | .PROCESSED => 3

theorem Dict.get?_cons (e : String × String) (d : Dict) (k : String) :
    Dict.get? (e :: d) k = if e.1 = k then some e.2 else Dict.get? d k := by
  by_cases h : e.1 = k <;> simp [Dict.get?, List.find?, h]

theorem Dict.get?_set (d : Dict) (k v k' : String) :
    Dict.get? (Dict.set d k v) k' = if k' = k then some v else Dict.get? d k' := by
  induction d with
  | nil =>
      simp only [Dict.set]
      rw [Dict.get?_cons]
      by_cases h : k' = k
      · simp [h]
      · rw [if_neg (fun hh : k = k' => h hh.symm), if_neg h]
  | cons e rest ih =>
      simp only [Dict.set]
      by_cases he : e.1 = k
      · rw [if_pos he, Dict.get?_cons, Dict.get?_cons]
        by_cases h : k' = k
        · simp [h]
        · simp only [h, if_false]
          rw [if_neg (fun hh : k = k' => h hh.symm),
            if_neg (fun hh : e.1 = k' => h (hh.symm.trans he))]
      · rw [if_neg he, Dict.get?_cons, Dict.get?_cons, ih]
        by_cases h1 : e.1 = k'
        · have hk : ¬ k' = k := fun hh => he (h1.trans hh)
          simp [h1, hk]
        · simp [h1]

theorem Dict.get?_eq_none_of_not_mem (d : Dict) (k : String)
    (h : k ∉ d.map Prod.fst) : Dict.get? d k = none := by
  induction d with
  | nil => rfl
  | cons e rest ih =>
      simp only [List.map_cons, List.mem_cons] at h
      push_neg at h
      rw [Dict.get?_cons, if_neg (Ne.symm h.1)]
      exact ih h.2

theorem Dict.get?_update (d kws : Dict)
    (hnd : (kws.map Prod.fst).Nodup) (k : String) :
    Dict.get? (Dict.update d kws) k =
      match Dict.get? kws k with
      | some v => some v
      | none => Dict.get? d k := by
  induction kws generalizing d with
  | nil => simp [Dict.update, Dict.get?, List.find?]
  | cons e rest ih =>
      simp only [List.map_cons, List.nodup_cons] at hnd
      have step : Dict.update d (e :: rest) = Dict.update (Dict.set d e.1 e.2) rest := by
        simp [Dict.update]
      rw [step, ih (Dict.set d e.1 e.2) hnd.2, Dict.get?_cons]
      by_cases hk : k = e.1
      · have hrest : Dict.get? rest k = none := by
          apply Dict.get?_eq_none_of_not_mem
          rw [hk]
          exact hnd.1
        rw [hrest, if_pos hk.symm, Dict.get?_set, if_pos hk]
      · rw [if_neg (fun hh : e.1 = k => hk hh.symm), Dict.get?_set, if_neg hk]

theorem abs_pyRound_sub (x : ℚ) : |(pyRound x : ℚ) - x| ≤ 1 / 2 := by
  unfold pyRound
  by_cases h : x - ⌊x⌋ = 1 / 2
  · by_cases he : ⌊x⌋ % 2 = 0
    · rw [if_pos h, if_pos he]
      have hcalc : (⌊x⌋ : ℚ) - x = -(1 / 2) := by linarith
      rw [hcalc, abs_neg, abs_of_nonneg (by norm_num : (0:ℚ) ≤ 1 / 2)]
    · rw [if_pos h, if_neg he]
      have hcalc : ((⌊x⌋ + 1 : ℤ) : ℚ) - x = 1 / 2 := by
        push_cast
        linarith
      rw [hcalc, abs_of_nonneg (by norm_num : (0:ℚ) ≤ 1 / 2)]
  · rw [if_neg h, abs_sub_comm]
    exact abs_sub_round x

theorem abs_round2_sub (x : ℚ) : |round2 x - x| ≤ 1 / 200 := by
  unfold round2
  have h := abs_pyRound_sub (100 * x)
  have hcalc : (pyRound (100 * x) : ℚ) / 100 - x =
      ((pyRound (100 * x) : ℚ) - 100 * x) / 100 := by ring
  rw [hcalc, abs_div, abs_of_nonneg (by norm_num : (0:ℚ) ≤ 100)]
  linarith

theorem round2_intCast (n : ℤ) : round2 ((n : ℤ) : ℚ) = ((n : ℤ) : ℚ) := by
  unfold round2 pyRound
  have h1 : (100 : ℚ) * ((n : ℤ) : ℚ) = ((100 * n : ℤ) : ℚ) := by
    push_cast
    ring
  rw [h1, Int.floor_intCast,
    if_neg (by norm_num :
      ¬(((100 * n : ℤ) : ℚ) - ((100 * n : ℤ) : ℚ) = 1 / 2)),
    round_intCast]
  push_cast
  field_simp

theorem success_state (meta : BackendMeta) (fakturace : Bool)
    (invoiceId : String) (p : Payment) :
    (Backend.success meta fakturace invoiceId p).1.state = PState.ACCEPTED := by
  simp only [Backend.success, Backend.generate_invoice]
  by_cases hr : !meta.recurring <;> by_cases hf : fakturace <;> simp [hr, hf]

theorem failure_state (p : Payment) :
    (Backend.failure p).1.state = PState.REJECTED := rfl

theorem step_state_cases (p q : Payment) (h : Step p q) :
    q.state = p.state ∨
    (p.state = PState.NEW ∧ q.state = PState.PENDING) ∨
    (p.state = PState.PENDING ∧
      (q.state = PState.ACCEPTED ∨ q.state = PState.REJECTED)) ∨
    (p.state = PState.ACCEPTED ∧ q.state = PState.PROCESSED) := by
  cases h with
  | initiate meta perform p =>
      by_cases h1 : p.state ≠ PState.NEW
      · left
        simp [Backend.initiate, h1]
      · push_neg at h1
        by_cases h2 : p.«repeat».isSome && !meta.recurring
        · left
          simp [Backend.initiate, h1, h2]
        · right; left
          refine ⟨h1, ?_⟩
          simp [Backend.initiate, h1, h2]
  | complete meta collect fakturace invoiceId p =>
      by_cases h1 : p.state ≠ PState.PENDING
      · left
        simp [Backend.complete, h1]
      · push_neg at h1
        right; right; left
        refine ⟨h1, ?_⟩
        by_cases h2 : (collect p).1
        · left
          simp only [Backend.complete, h1]
          simp [h2, success_state]
        · right
          simp only [Backend.complete, h1]
          simp [h2, failure_state]
  | process p hacc =>
      right; right; right
      exact ⟨hacc, rfl⟩

theorem step_props (p q : Payment) (h : Step p q) :
    PState.rank p.state ≤ PState.rank q.state ∧
    (p.state = PState.REJECTED → q.state = PState.REJECTED) ∧
    (p.state = PState.PROCESSED → q.state = PState.PROCESSED) ∧
    (p.state = PState.ACCEPTED →
      q.state = PState.ACCEPTED ∨ q.state = PState.PROCESSED) := by
  rcases step_state_cases p q h with hsame | ⟨h1, h2⟩ | ⟨h1, h2⟩ | ⟨h1, h2⟩
  · rw [hsame]
    exact ⟨le_refl _, fun hh => hh, fun hh => hh, fun hh => .inl hh⟩
  · rw [h1, h2]
    refine ⟨by simp [PState.rank], ?_, ?_, ?_⟩ <;> intro hh <;> cases hh
  · rcases h2 with h2 | h2 <;> rw [h1, h2] <;>
      (refine ⟨by simp [PState.rank], ?_, ?_, ?_⟩ <;> intro hh <;> cases hh)
  · rw [h1, h2]
    refine ⟨by simp [PState.rank], ?_, ?_, fun _ => .inr rfl⟩ <;>
      intro hh <;> cases hh

/-- C2: `Backend.initiate` fails with `InvalidState` when the payment is
not `NEW`, and when `repeat` is set on a backend without recurring
capability; in either failure case the payment is returned unchanged.
When the preconditions hold, after the method-specific `perform` the
state is unconditionally `PENDING` and `perform`'s result is returned. -/
theorem claim_C2_initiate_guards (meta : BackendMeta)
    (perform : Payment → Option String × Payment) (p : Payment) :
    (p.state ≠ PState.NEW →
      Backend.initiate meta perform p = (.error .InvalidState, p)) ∧
    (p.«repeat».isSome = true → meta.recurring = false →
      Backend.initiate meta perform p = (.error .InvalidState, p)) ∧
    (p.state = PState.NEW → (p.«repeat».isSome = true → meta.recurring = true) →
      (Backend.initiate meta perform p).1 = .ok (perform p).1 ∧
      (Backend.initiate meta perform p).2.state = PState.PENDING) := by
  refine ⟨?_, ?_, ?_⟩
  · intro h1
    simp [Backend.initiate, h1]
  · intro hr hnc
    by_cases h1 : p.state ≠ PState.NEW
    · simp [Backend.initiate, h1]
    · push_neg at h1
      simp [Backend.initiate, h1, hr, hnc]
  · intro h1 h2
    have hg : (p.«repeat».isSome && !meta.recurring) = false := by
      cases hr : p.«repeat».isSome with
      | false => simp
      | true => simp [h2 hr]
    constructor
    · simp [Backend.initiate, h1, hg]
    · simp [Backend.initiate, h1, hg]

/-- C2 witness: the guards evaluated on concrete payments via the debug
reject backend (no recurring capability). -/
theorem claim_C2_witness :
    (Payment.state { amount := 1, state := PState.PENDING } ≠ PState.NEW ∧
      Backend.initiate DebugReject.meta DebugPay.perform
        { amount := 1, state := PState.PENDING } =
        (.error .InvalidState, { amount := 1, state := PState.PENDING })) ∧
    (Payment.state { amount := 1 } = PState.NEW ∧
      (Backend.initiate DebugReject.meta DebugPay.perform { amount := 1 }).1 =
        .ok (DebugPay.perform { amount := 1 }).1 ∧
      (Backend.initiate DebugReject.meta DebugPay.perform
        { amount := 1 }).2.state = PState.PENDING) := by
  constructor
  · exact ⟨by decide,
      (claim_C2_initiate_guards DebugReject.meta DebugPay.perform
        { amount := 1, state := PState.PENDING }).1 (by decide)⟩
  · exact ⟨rfl,
      (claim_C2_initiate_guards DebugReject.meta DebugPay.perform
        { amount := 1 }).2.2 rfl (by intro h; cases h)⟩

/-- C7: `needs_vat` holds exactly when the VAT country code is CZ or the
customer is an EU end consumer (country in the EU table, no VAT id), and
`vat_rate` is the flat 21 when `needs_vat` holds and 0 otherwise — never
a value taken from the per-country table (always 21 or 0). -/
theorem claim_C7_needs_vat_flat_rate (c : Customer) :
    (c.needs_vat = true ↔
      (c.vat_country_code = some "CZ" ∨
        ((∃ cc, c.country_code = some cc ∧
            cc ∈ EU_VAT_RATES.map Prod.fst) ∧ c.vat = ""))) ∧
    (c.needs_vat = true → c.vat_rate = 21) ∧
    (c.needs_vat = false → c.vat_rate = 0) ∧
    (c.vat_rate = 21 ∨ c.vat_rate = 0) := by
  have heu : c.is_eu_enduser = true ↔
      ((∃ cc, c.country_code = some cc ∧
          cc ∈ EU_VAT_RATES.map Prod.fst) ∧ c.vat = "") := by
    unfold Customer.is_eu_enduser
    cases hcc : c.country_code with
    | none =>
        simp [hcc]
    | some cc =>
        simp only [hcc, Bool.and_eq_true, decide_eq_true_eq]
        rw [List.find?_isSome]
        constructor
        · rintro ⟨⟨e, hmem, he⟩, hv⟩
          refine ⟨⟨cc, rfl, ?_⟩, hv⟩
          simp only [decide_eq_true_eq] at he
          exact he ▸ List.mem_map_of_mem Prod.fst hmem
        · rintro ⟨⟨cc2, hcc2, hmem⟩, hv⟩
          have hcceq : cc = cc2 := Option.some_injective _ hcc2
          rw [← hcceq] at hmem
          refine ⟨?_, hv⟩
          obtain ⟨e, hmem2, he⟩ := List.mem_map.mp hmem
          exact ⟨e, hmem2, by simp [he]⟩
  refine ⟨?_, ?_, ?_, ?_⟩
  · unfold Customer.needs_vat
    rw [Bool.or_eq_true, decide_eq_true_eq, heu]
  · intro h
    simp [Customer.vat_rate, h, VAT_RATE]
  · intro h
    simp [Customer.vat_rate, h]
  · unfold Customer.vat_rate
    by_cases h : c.needs_vat <;> simp [h, VAT_RATE]

/-- C7 witness: a Czech end consumer needs VAT at the flat rate 21; a
Hungarian end consumer also gets the flat 21, not the table's 27. -/
theorem claim_C7_witness :
    (Customer.needs_vat { country := some "CZ" } = true ↔
      (Customer.vat_country_code { country := some "CZ" } = some "CZ" ∨
        ((∃ cc, Customer.country_code { country := some "CZ" } = some cc ∧
            cc ∈ EU_VAT_RATES.map Prod.fst) ∧
          Customer.vat { country := some "CZ" } = ""))) ∧
    (Customer.needs_vat { country := some "CZ" } = true →
      Customer.vat_rate { country := some "CZ" } = 21) ∧
    (Customer.needs_vat { country := some "HU" } = true ∧
      Customer.vat_rate { country := some "HU" } = 21) := by
  refine ⟨(claim_C7_needs_vat_flat_rate { country := some "CZ" }).1,
    (claim_C7_needs_vat_flat_rate { country := some "CZ" }).2.1, by decide,
    (claim_C7_needs_vat_flat_rate { country := some "HU" }).2.1 (by decide)⟩

/-- C8: validation of a customer with a VAT id raises a country-field
validation error exactly when the VAT id's country prefix differs from
the customer's country; with no VAT id it raises nothing; and a passing
validation returns the customer unchanged (no silent correction). -/
theorem claim_C8_clean_validation (c : Customer) :
    (c.vat ≠ "" →
      (Customer.clean c =
          .error ("country", "The country has to match your VAT code") ↔
        c.vat_country_code ≠ c.country_code)) ∧
    (c.vat = "" → Customer.clean c = .ok c) ∧
    (∀ c2, Customer.clean c = .ok c2 → c2 = c) := by
  refine ⟨?_, ?_, ?_⟩
  · intro hv
    unfold Customer.clean
    rw [if_pos hv]
    by_cases hm : c.vat_country_code ≠ c.country_code
    · simp [hm]
    · simp [hm]
  · intro hv
    simp [Customer.clean, hv]
  · intro c2
    unfold Customer.clean
    by_cases hv : c.vat ≠ ""
    · rw [if_pos hv]
      by_cases hm : c.vat_country_code ≠ c.country_code
      · rw [if_pos hm]
        intro h
        cases h
      · rw [if_neg hm]
        intro h
        cases h
        rfl
    · rw [if_neg hv]
      intro h
      cases h
      rfl

/-- C8 witness: a customer whose VAT prefix CZ mismatches country DE gets
the country error; the same customer without a VAT id validates. -/
theorem claim_C8_witness :
    (Customer.vat { vat := "CZ8003280318", country := some "DE" } ≠ "" ∧
      (Customer.clean { vat := "CZ8003280318", country := some "DE" } =
          .error ("country", "The country has to match your VAT code") ↔
        Customer.vat_country_code { vat := "CZ8003280318", country := some "DE" } ≠
          Customer.country_code { vat := "CZ8003280318", country := some "DE" })) ∧
    (Customer.vat { country := some "DE" } = "" ∧
      Customer.clean { country := some "DE" } = .ok { country := some "DE" }) := by
  refine ⟨⟨by decide, ?_⟩, ⟨rfl, ?_⟩⟩
  · exact (claim_C8_clean_validation
      { vat := "CZ8003280318", country := some "DE" }).1 (by decide)
  · exact (claim_C8_clean_validation { country := some "DE" }).2.1 rfl

/-- C6: for a CZ end consumer (VAT applies at rate 21), `vat_amount` of a
non-fixed payment of 100 is 121, `amount_without_vat` of a fixed payment
of 121 is 100, and in general degrossing the grossed amount of any
non-fixed payment recovers the original within the rounding tolerance of
1/200 (half a cent). -/
theorem claim_C6_vat_roundtrip (a : ℤ) (c : Customer)
    (h : c.needs_vat = true) :
    Payment.vat_amount
        { amount := 100, customer := { country := some "CZ" } } = 121 ∧
    Payment.amount_without_vat
        { amount := 121, customer := { country := some "CZ" },
          amount_fixed := true } = 100 ∧
    |100 * Payment.vat_amount { amount := a, customer := c } /
        (100 + (Customer.vat_rate c : ℚ)) - (a : ℚ)| ≤ 1 / 200 := by
  have hrate : Customer.vat_rate c = 21 := by
    simp [Customer.vat_rate, h, VAT_RATE]
  have hcz : Customer.needs_vat { country := some "CZ" } = true := by decide
  have hczrate : Customer.vat_rate { country := some "CZ" } = 21 := by decide
  have hgross : Payment.vat_amount
      { amount := 100, customer := { country := some "CZ" } } = 121 := by
    simp only [Payment.vat_amount, hcz, hczrate]
    norm_num
    rw [show (121 : ℚ) = ((121 : ℤ) : ℚ) by norm_num, round2_intCast]
  have hdegross : Payment.amount_without_vat
      { amount := 121, customer := { country := some "CZ" },
        amount_fixed := true } = 100 := by
    simp only [Payment.amount_without_vat, hcz, hczrate]
    norm_num
  refine ⟨hgross, hdegross, ?_⟩
  have hcond : (Customer.needs_vat { amount := (a : ℤ), customer := c :
      Payment }.customer && !Payment.amount_fixed
        { amount := (a : ℤ), customer := c }) = true := by
    simp [h]
  simp only [Payment.vat_amount, hcond, if_true, hrate]
  have hb := abs_round2_sub ((100 + ((21 : ℕ) : ℚ)) * (a : ℚ) / 100)
  set g : ℚ := (100 + ((21 : ℕ) : ℚ)) * (a : ℚ) / 100 with hg
  have key : 100 * round2 g / (100 + ((21 : ℕ) : ℚ)) - (a : ℚ) =
      (100 / 121) * (round2 g - g) := by
    rw [hg]
    push_cast
    ring
  rw [key, abs_mul, abs_of_nonneg (by norm_num : (0:ℚ) ≤ 100 / 121)]
  calc 100 / 121 * |round2 g - g| ≤ 100 / 121 * (1 / 200) := by
        exact mul_le_mul_of_nonneg_left hb (by norm_num)
    _ ≤ 1 / 200 := by norm_num

/-- C6 witness: the round-trip bound evaluated for a CZ end consumer at
amount 100. -/
theorem claim_C6_witness :
    Customer.needs_vat { country := some "CZ" } = true ∧
    (Payment.vat_amount
        { amount := 100, customer := { country := some "CZ" } } = 121 ∧
      Payment.amount_without_vat
        { amount := 121, customer := { country := some "CZ" },
          amount_fixed := true } = 100 ∧
      |100 * Payment.vat_amount
          { amount := 100, customer := { country := some "CZ" } } /
          (100 + (Customer.vat_rate { country := some "CZ" } : ℚ)) -
          ((100 : ℤ) : ℚ)| ≤ 1 / 200) :=
  ⟨by decide, claim_C6_vat_roundtrip 100 { country := some "CZ" } (by decide)⟩

/-- C3: along any sequence of `initiate`/`complete` operations (with any
backend) and external `PROCESSED` markings, the state only moves forward
along NEW → PENDING → (ACCEPTED | REJECTED), and no payment ever leaves
REJECTED or PROCESSED, while ACCEPTED can only move on to PROCESSED. -/
theorem claim_C3_forward_only (p q : Payment)
    (h : Relation.ReflTransGen Step p q) :
    PState.rank p.state ≤ PState.rank q.state ∧
    (p.state = PState.REJECTED → q.state = PState.REJECTED) ∧
    (p.state = PState.PROCESSED → q.state = PState.PROCESSED) ∧
    (p.state = PState.ACCEPTED →
      q.state = PState.ACCEPTED ∨ q.state = PState.PROCESSED) := by
  induction h with
  | refl =>
      exact ⟨le_refl _, fun hh => hh, fun hh => hh, fun hh => .inl hh⟩
  | tail hab hbc ih =>
      obtain ⟨r1, r2, r3, r4⟩ := ih
      obtain ⟨s1, s2, s3, s4⟩ := step_props _ _ hbc
      refine ⟨le_trans r1 s1, fun hh => s2 (r2 hh), fun hh => s3 (r3 hh),
        fun hh => ?_⟩
      rcases r4 hh with hb | hb
      · exact s4 hb
      · exact .inr (s3 hb)

/-- C3 witness: a one-step sequence, an `initiate` through the debug pay
backend from a NEW payment, evaluated concretely. -/
theorem claim_C3_witness :
    PState.rank (Payment.state { amount := 1 }) ≤
      PState.rank
        (Backend.initiate DebugPay.meta DebugPay.perform
          { amount := 1 }).2.state ∧
    (Payment.state { amount := 1 } = PState.REJECTED →
      (Backend.initiate DebugPay.meta DebugPay.perform
        { amount := 1 }).2.state = PState.REJECTED) ∧
    (Payment.state { amount := 1 } = PState.PROCESSED →
      (Backend.initiate DebugPay.meta DebugPay.perform
        { amount := 1 }).2.state = PState.PROCESSED) ∧
    (Payment.state { amount := 1 } = PState.ACCEPTED →
      (Backend.initiate DebugPay.meta DebugPay.perform
          { amount := 1 }).2.state = PState.ACCEPTED ∨
        (Backend.initiate DebugPay.meta DebugPay.perform
          { amount := 1 }).2.state = PState.PROCESSED) :=
  claim_C3_forward_only { amount := 1 }
    (Backend.initiate DebugPay.meta DebugPay.perform { amount := 1 }).2
    (Relation.ReflTransGen.single
      (Step.initiate DebugPay.meta DebugPay.perform { amount := 1 }))

theorem foldl_optmax_payment (l : List Payment) (m : ℕ) :
    l.foldl
      (fun acc q =>
        match acc with
        | none => some q.created
        | some m0 => some (max m0 q.created)) (some m) =
      some (l.foldl (fun m0 q => max m0 q.created) m) := by
  induction l generalizing m with
  | nil => rfl
  | cons a as ih => simpa using ih (max m a.created)

theorem lastGoodCreated_eq_max (previous : List Payment) :
    lastGoodCreated previous =
      ((previous.filter (fun q => q.state = PState.PROCESSED)).map
        Payment.created).max? := by
  unfold lastGoodCreated
  generalize (previous.filter (fun q => q.state = PState.PROCESSED)) = l
  cases l with
  | nil => rfl
  | cons a as =>
      show List.foldl _ (some a.created) as = _
      rw [foldl_optmax_payment, List.map_cons]
      show _ = some ((List.map Payment.created as).foldl max a.created)
      rw [List.foldl_map]

theorem failureStreak_eq_spec (previous : List Payment) :
    failureStreak previous = chainFailureStreakSpec previous := by
  unfold failureStreak chainFailureStreakSpec
  rw [lastGoodCreated_eq_max]
  cases h : ((previous.filter (fun q => q.state = PState.PROCESSED)).map
      Payment.created).max? with
  | none => rfl
  | some t =>
      show (List.filter (fun q => decide (t < q.created))
          (List.filter (fun q => decide (q.state = PState.REJECTED))
            previous)).length =
        (List.filter (fun q => decide (q.state = PState.REJECTED ∧
          t < q.created)) previous).length
      rw [List.filter_filter]
      congr 1
      apply List.filter_congr
      intro q _
      rw [Bool.decide_and, Bool.and_comm]

/-- C4: the failure streak counted by `repeat_payment` is exactly the
count the spec describes (REJECTED chain members created after the most
recent PROCESSED one, or all REJECTED members when no PROCESSED exists),
and when the backend still resolves and that count has reached 3,
`repeat_payment` returns false and creates no row. -/
theorem claim_C4_failure_streak_refusal (paymentDebug : Bool)
    (previous : List Payment) (kwargs : Dict) (newPk now : Nat)
    (p : Payment)
    (hb : (get_backend paymentDebug p.backend).isSome = true) :
    failureStreak previous = chainFailureStreakSpec previous ∧
    (3 ≤ chainFailureStreakSpec previous →
      Payment.repeat_payment paymentDebug previous kwargs newPk now p =
        (some false, none)) := by
  refine ⟨failureStreak_eq_spec previous, fun h3 => ?_⟩
  obtain ⟨b, hbb⟩ := Option.isSome_iff_exists.mp hb
  have hstreak : 3 ≤ failureStreak previous := by
    rw [failureStreak_eq_spec previous]
    exact h3
  have hne : previous ≠ [] := by
    intro hnil
    rw [hnil] at hstreak
    simp [failureStreak, lastGoodCreated] at hstreak
  unfold Payment.repeat_payment
  rw [hbb]
  rw [if_pos (by simp [hne, hstreak])]

/-- C4 witness: a chain of three REJECTED renewals (and no PROCESSED one)
makes `repeat_payment` refuse for a payment whose backend is the debug
pay backend with debug mode on. -/
theorem claim_C4_witness :
    (get_backend true
      (Payment.backend { amount := 1, backend := "pay" })).isSome = true ∧
    (failureStreak
        [{ amount := 1, state := PState.REJECTED, created := 1 },
         { amount := 1, state := PState.REJECTED, created := 2 },
         { amount := 1, state := PState.REJECTED, created := 3 }] =
      chainFailureStreakSpec
        [{ amount := 1, state := PState.REJECTED, created := 1 },
         { amount := 1, state := PState.REJECTED, created := 2 },
         { amount := 1, state := PState.REJECTED, created := 3 }] ∧
      (3 ≤ chainFailureStreakSpec
          [{ amount := 1, state := PState.REJECTED, created := 1 },
           { amount := 1, state := PState.REJECTED, created := 2 },
           { amount := 1, state := PState.REJECTED, created := 3 }] →
        Payment.repeat_payment true
          [{ amount := 1, state := PState.REJECTED, created := 1 },
           { amount := 1, state := PState.REJECTED, created := 2 },
           { amount := 1, state := PState.REJECTED, created := 3 }]
          [] 9 9 { amount := 1, backend := "pay" } =
          (some false, none))) :=
  ⟨by decide,
   claim_C4_failure_streak_refusal true
     [{ amount := 1, state := PState.REJECTED, created := 1 },
      { amount := 1, state := PState.REJECTED, created := 2 },
      { amount := 1, state := PState.REJECTED, created := 3 }]
     [] 9 9 { amount := 1, backend := "pay" } (by decide)⟩

/-- C5: when `repeat_payment` does not refuse (backend resolves, streak
below three), the created row copies amount, description, `amount_fixed`
and customer from the original, clears `recurring`, points `repeat` at
the original, and its `extra` is the original's `extra` merged with the
caller's keyword overrides, the caller winning on key conflicts (key
uniqueness of both dicts is the Python dict invariant). -/
theorem claim_C5_renewal_row (paymentDebug : Bool)
    (previous : List Payment) (kwargs : Dict) (newPk now : Nat)
    (p : Payment)
    (hb : (get_backend paymentDebug p.backend).isSome = true)
    (hs : failureStreak previous < 3)
    (hk : (kwargs.map Prod.fst).Nodup)
    (he : (p.extra.map Prod.fst).Nodup) :
    ∃ np,
      Payment.repeat_payment paymentDebug previous kwargs newPk now p =
        (none, some np) ∧
      np.amount = p.amount ∧
      np.description = p.description ∧
      np.amount_fixed = p.amount_fixed ∧
      np.customer = p.customer ∧
      np.recurring = "" ∧
      np.«repeat» = some p.pk ∧
      (∀ k, Dict.get? np.extra k =
        match Dict.get? kwargs k with
        | some v => some v
        | none => Dict.get? p.extra k) := by
  obtain ⟨b, hbb⟩ := Option.isSome_iff_exists.mp hb
  refine Exists.intro
    { amount := p.amount, description := p.description,
      recurring := "", customer := p.customer,
      amount_fixed := p.amount_fixed, «repeat» := some p.pk,
      extra := (Dict.update [] p.extra).update kwargs,
      created := now, pk := newPk }
    ⟨?_, rfl, rfl, rfl, rfl, rfl, rfl, ?_⟩
  · unfold Payment.repeat_payment
    rw [hbb, if_neg (by simp [Nat.not_le.mpr hs])]
  · intro k
    show Dict.get? (Dict.update (Dict.update [] p.extra) kwargs) k = _
    rw [Dict.get?_update _ kwargs hk k,
      Dict.get?_update [] p.extra he k]
    cases Dict.get? kwargs k with
    | some v => rfl
    | none =>
        cases Dict.get? p.extra k with
        | some v => rfl
        | none => rfl

/-- C5 witness: a concrete renewal with overlapping extra keys shows the
caller's value winning and the original's surviving elsewhere. -/
theorem claim_C5_witness :
    ∃ np,
      Payment.repeat_payment true []
          [("b", "9"), ("c", "7")] 4 4
          { amount := 5, description := "d", backend := "pay",
            extra := [("a", "1"), ("b", "2")], pk := 3 } =
        (none, some np) ∧
      np.amount = 5 ∧
      np.description = "d" ∧
      np.amount_fixed = false ∧
      np.customer = ({} : Customer) ∧
      np.recurring = "" ∧
      np.«repeat» = some 3 ∧
      (∀ k, Dict.get? np.extra k =
        match Dict.get? [("b", "9"), ("c", "7")] k with
        | some v => some v
        | none => Dict.get? [("a", "1"), ("b", "2")] k) := by
  obtain ⟨np, h1, h2, h3, h4, h5, h6, h7, h8⟩ :=
    claim_C5_renewal_row true []
      [("b", "9"), ("c", "7")] 4 4
      { amount := 5, description := "d", backend := "pay",
        extra := [("a", "1"), ("b", "2")], pk := 3 }
      (by decide) (by decide) (by decide) (by decide)
  exact ⟨np, h1, h2, h3, h4, h5, h6, h7, h8⟩

/-- C10: `repeat_payment` never returns True: its value is an explicit
False exactly on the refusal paths (which create no row), and None
(modelled as `none`, falsy like False) on the path that creates the new
row. -/
theorem claim_C10_return_value (paymentDebug : Bool)
    (previous : List Payment) (kwargs : Dict) (newPk now : Nat)
    (p : Payment) :
    ((Payment.repeat_payment paymentDebug previous kwargs newPk
        now p).1 ≠ some true) ∧
    ((Payment.repeat_payment paymentDebug previous kwargs newPk
        now p).1 = some false →
      (Payment.repeat_payment paymentDebug previous kwargs newPk
        now p).2 = none) ∧
    ((get_backend paymentDebug p.backend).isSome = true →
      failureStreak previous < 3 →
      (Payment.repeat_payment paymentDebug previous kwargs newPk
          now p).1 = none ∧
      (Payment.repeat_payment paymentDebug previous kwargs newPk
          now p).2.isSome = true) := by
  unfold Payment.repeat_payment
  cases hbb : get_backend paymentDebug p.backend with
  | none =>
      refine ⟨by simp, by simp, fun hbs _ => ?_⟩
      simp at hbs
  | some b =>
      by_cases hg : (previous ≠ [] && decide (3 ≤ failureStreak previous)) = true
      · rw [if_pos hg]
        refine ⟨by simp, by simp, fun _ hs => ?_⟩
        simp only [Bool.and_eq_true, decide_eq_true_eq] at hg
        exact absurd hg.2 (Nat.not_le.mpr hs)
      · rw [if_neg hg]
        exact ⟨by simp, by simp, fun _ _ => ⟨rfl, rfl⟩⟩

/-- C10 witness: with a resolvable backend and an empty chain the call
returns None and creates a row; with an unknown backend it returns an
explicit False and creates none. -/
theorem claim_C10_witness :
    ((Payment.repeat_payment true [] [] 4 4
        { amount := 5, backend := "pay" }).1 ≠ some true) ∧
    ((get_backend true
        (Payment.backend { amount := 5, backend := "pay" })).isSome = true ∧
      failureStreak [] < 3 ∧
      (Payment.repeat_payment true [] [] 4 4
          { amount := 5, backend := "pay" }).1 = none ∧
      (Payment.repeat_payment true [] [] 4 4
          { amount := 5, backend := "pay" }).2.isSome = true) ∧
    Payment.repeat_payment true [] [] 4 4
        { amount := 5, backend := "nosuch" } = (some false, none) := by
  refine ⟨(claim_C10_return_value true [] [] 4 4
      { amount := 5, backend := "pay" }).1,
    ⟨by decide, by decide, ?_, ?_⟩, by decide⟩
  · exact ((claim_C10_return_value true [] [] 4 4
      { amount := 5, backend := "pay" }).2.2 (by decide) (by decide)).1
  · exact ((claim_C10_return_value true [] [] 4 4
      { amount := 5, backend := "pay" }).2.2 (by decide) (by decide)).2

/-- C1 (amended): `Backend.complete` fails with `InvalidState` (mutating
nothing, firing nothing) unless the state is `PENDING`; otherwise it runs
the method-specific `collect`.  When `collect` returns true it sets the
state to `ACCEPTED`, clears `recurring` unless the backend declares
recurring capability, generates the invoice (when invoicing is enabled by
configuration) and sends the success notification, returning true.  When
`collect` returns false it sets the state to `REJECTED` and sends the
failure notification — which quotes the reject reason recorded in
`details` by `collect` when one was recorded, defaulting to the source's
"Uknown" otherwise — and returns false; `complete` itself records no
reject reason. -/
theorem claim_C1_complete_lifecycle (meta : BackendMeta)
    (collect : Payment → Bool × Payment) (fakturace : Bool)
    (invoiceId : String) (p : Payment) :
    (p.state ≠ PState.PENDING →
      Backend.complete meta collect fakturace invoiceId p =
        (.error .InvalidState, p, [])) ∧
    (p.state = PState.PENDING → (collect p).1 = true →
      (Backend.complete meta collect fakturace invoiceId p).1 = .ok true ∧
      (Backend.complete meta collect fakturace invoiceId
        p).2.1.state = PState.ACCEPTED ∧
      (meta.recurring = false →
        (Backend.complete meta collect fakturace invoiceId
          p).2.1.recurring = "") ∧
      (meta.recurring = true →
        (Backend.complete meta collect fakturace invoiceId
          p).2.1.recurring = (collect p).2.recurring) ∧
      (fakturace = true →
        Event.invoiced ∈
          (Backend.complete meta collect fakturace invoiceId p).2.2 ∧
        (Backend.complete meta collect fakturace invoiceId
          p).2.1.invoice = invoiceId) ∧
      Event.mailSuccess ∈
        (Backend.complete meta collect fakturace invoiceId p).2.2) ∧
    (p.state = PState.PENDING → (collect p).1 = false →
      (Backend.complete meta collect fakturace invoiceId p).1 = .ok false ∧
      (Backend.complete meta collect fakturace invoiceId
        p).2.1.state = PState.REJECTED ∧
      (Backend.complete meta collect fakturace invoiceId
        p).2.1.details = (collect p).2.details ∧
      (Backend.complete meta collect fakturace invoiceId p).2.2 =
        [Event.mailFailure
          (Dict.getD (collect p).2.details "reject_reason" "Uknown")]) := by
  refine ⟨?_, ?_, ?_⟩
  · intro h1
    simp [Backend.complete, h1]
  · intro h1 hc
    have hred : Backend.complete meta collect fakturace invoiceId p =
        (.ok true, (Backend.success meta fakturace invoiceId
          (collect p).2).1,
         (Backend.success meta fakturace invoiceId (collect p).2).2) := by
      simp [Backend.complete, h1, hc]
    rw [hred]
    refine ⟨rfl, success_state meta fakturace invoiceId (collect p).2,
      ?_, ?_, ?_, ?_⟩
    · intro hr
      simp [Backend.success, Backend.generate_invoice, hr]
      by_cases hf : fakturace <;> simp [hf]
    · intro hr
      simp [Backend.success, Backend.generate_invoice, hr]
      by_cases hf : fakturace <;> simp [hf]
    · intro hf
      constructor
      · simp [Backend.success, Backend.generate_invoice, hf]
      · by_cases hr : meta.recurring <;>
          simp [Backend.success, Backend.generate_invoice, hf, hr]
    · by_cases hf : fakturace <;>
        simp [Backend.success, Backend.generate_invoice, hf]
  · intro h1 hc
    have hred : Backend.complete meta collect fakturace invoiceId p =
        (.ok false, (Backend.failure (collect p).2).1,
         (Backend.failure (collect p).2).2) := by
      simp [Backend.complete, h1, hc]
    rw [hred]
    exact ⟨rfl, rfl, rfl, rfl⟩

/-- C1 counterexample: completing a PENDING payment through the ThePay
card backend whose gateway callback fails the signature check returns
false and rejects the payment, but records no reject reason string at
all — `details` stays empty and the failure mail falls back to
`"Uknown"`. -/
theorem claim_C1_counterexample :
    (Backend.complete ThePayCard.meta
        (ThePayCard.collect
          { signatureValid := false, merchantData := "7", status := 2,
            data := [("x", "y")] })
        true "INV-1"
        { amount := 100, state := PState.PENDING, pk := 7 }).1 =
      .ok false ∧
    (Backend.complete ThePayCard.meta
        (ThePayCard.collect
          { signatureValid := false, merchantData := "7", status := 2,
            data := [("x", "y")] })
        true "INV-1"
        { amount := 100, state := PState.PENDING, pk := 7 }).2.1.state =
      PState.REJECTED ∧
    (Backend.complete ThePayCard.meta
        (ThePayCard.collect
          { signatureValid := false, merchantData := "7", status := 2,
            data := [("x", "y")] })
        true "INV-1"
        { amount := 100, state := PState.PENDING, pk := 7 }).2.1.details =
      [] ∧
    Dict.get?
      (Backend.complete ThePayCard.meta
        (ThePayCard.collect
          { signatureValid := false, merchantData := "7", status := 2,
            data := [("x", "y")] })
        true "INV-1"
        { amount := 100, state := PState.PENDING, pk := 7 }).2.1.details
      "reject_reason" = none ∧
    (Backend.complete ThePayCard.meta
        (ThePayCard.collect
          { signatureValid := false, merchantData := "7", status := 2,
            data := [("x", "y")] })
        true "INV-1"
        { amount := 100, state := PState.PENDING, pk := 7 }).2.2 =
      [Event.mailFailure "Uknown"] := by
  refine ⟨rfl, rfl, rfl, rfl, rfl⟩

/-- C1 witness: the amended failure branch evaluated through the debug
reject backend, and the success branch through the debug pay backend. -/
theorem claim_C1_witness :
    (Payment.state { amount := 1, state := PState.PENDING } =
        PState.PENDING ∧
      (DebugReject.collect { amount := 1, state := PState.PENDING }).1 =
        false ∧
      (Backend.complete DebugReject.meta DebugReject.collect true "I"
          { amount := 1, state := PState.PENDING }).1 = .ok false ∧
      (Backend.complete DebugReject.meta DebugReject.collect true "I"
          { amount := 1, state := PState.PENDING }).2.1.state =
        PState.REJECTED ∧
      (Backend.complete DebugReject.meta DebugReject.collect true "I"
          { amount := 1, state := PState.PENDING }).2.2 =
        [Event.mailFailure
          (Dict.getD
            (DebugReject.collect
              { amount := 1, state := PState.PENDING }).2.details
            "reject_reason" "Uknown")]) ∧
    ((DebugPay.collect { amount := 1, state := PState.PENDING }).1 =
        true ∧
      (Backend.complete DebugPay.meta DebugPay.collect true "I"
          { amount := 1, state := PState.PENDING }).1 = .ok true ∧
      (Backend.complete DebugPay.meta DebugPay.collect true "I"
          { amount := 1, state := PState.PENDING }).2.1.state =
        PState.ACCEPTED) := by
  have hrej := (claim_C1_complete_lifecycle DebugReject.meta
    DebugReject.collect true "I"
    { amount := 1, state := PState.PENDING }).2.2 rfl (by decide)
  have hpay := (claim_C1_complete_lifecycle DebugPay.meta
    DebugPay.collect true "I"
    { amount := 1, state := PState.PENDING }).2.1 rfl (by decide)
  exact ⟨⟨rfl, by decide, hrej.1, hrej.2.1, hrej.2.2.2⟩,
    ⟨by decide, hpay.1, hpay.2.1⟩⟩

/-- C9: at a NEW payment whose `backend` column holds the method used at
creation time ("pay"), initiating through the debug pending backend
leaves the `backend` field untouched ("pay", not "pending") and instead
stores the method name under `details['backend']`, while the state does
become PENDING — the method used is not recorded on the field the data
model reserves for it. -/
theorem claim_C9_backend_field_not_recorded :
    (Backend.initiate DebugPending.meta
        (DebugPending.perform "https://example.com/complete")
        { amount := 100, backend := "pay" }).2.backend = "pay" ∧
    (Backend.initiate DebugPending.meta
        (DebugPending.perform "https://example.com/complete")
        { amount := 100, backend := "pay" }).2.backend ≠ "pending" ∧
    Dict.get?
      (Backend.initiate DebugPending.meta
        (DebugPending.perform "https://example.com/complete")
        { amount := 100, backend := "pay" }).2.details "backend" =
      some "pending" ∧
    (Backend.initiate DebugPending.meta
        (DebugPending.perform "https://example.com/complete")
        { amount := 100, backend := "pay" }).2.state = PState.PENDING := by
  refine ⟨rfl, by decide, rfl, rfl⟩

end Wlhosted
